import Mathlib

/-!
Verification of the stock-ledger and order-flow core of danvoulez/AgentOS.

Embedded source functions:
* `ProductRepository.update_stock_atomic` and `ProductRepository.update`
  (backend/app/modules/sales/repository.py);
* `OrderService.create_order` and `OrderService.update_order_status`
  (backend/app/modules/people/services.py).

MongoDB documents are modelled as Lean structures; the atomic
`find_one_and_update` of `update_stock_atomic` becomes a pure conditional
state update (the store guarantees the read-check-write is indivisible per
document, so a concurrent execution is an interleaving of these atomic
steps).  `StockReservationService` (sales/reservation_service.py) and
`BaseRepository` (core/repository.py) are imported by the embedded files but
are not present in the source tree; where a claim depends on them they are
modelled from the spec, and each such definition says so in its doc comment.
-/

namespace AgentOS

/-- Stock fields of a product document: `stock_quantity` (physical units on
hand) and `reserved_stock` (units provisionally held).  Python integers are
unbounded, so the fields are `Int`. -/
structure ProductStock where
  stock_quantity : Int
  reserved_stock : Int
deriving Repr, DecidableEq

/-- Derived available stock: `stock_quantity - reserved_stock` (the
`available_stock` property used by `_process_order_items`). -/
def available_stock (p : ProductStock) : Int :=
  p.stock_quantity - p.reserved_stock

/-- Embeds `ProductRepository.update_stock_atomic` (sales/repository.py,
lines 188-235).  The Mongo query accumulates guard conditions and
`find_one_and_update` applies the `quantity_change` increment only when the
guard matches; the return value is the success boolean paired with the
resulting document state.

* `is_reservation = true`: if `quantity_change > 0` the query requires
  `stock_quantity >= quantity_change` (physical only, the code deliberately
  does not look at `reserved_stock` here); if `quantity_change < 0` it
  requires `reserved_stock >= |quantity_change|`; `$inc reserved_stock`.
* `is_reservation = false`: if `quantity_change < 0` the query requires
  `stock_quantity >= |quantity_change|` and `reserved_stock >=
  |quantity_change|` and both fields are incremented by `quantity_change`;
  otherwise only `stock_quantity` is incremented, with no guard. -/
def update_stock_atomic (st : ProductStock) (quantity_change : Int)
    (is_reservation : Bool) : Bool × ProductStock :=
  if is_reservation then
    if (0 < quantity_change → quantity_change ≤ st.stock_quantity) ∧
       (quantity_change < 0 → -quantity_change ≤ st.reserved_stock) then
      (true, { st with reserved_stock := st.reserved_stock + quantity_change })
    else
      (false, st)
  else
    if quantity_change < 0 then
      if -quantity_change ≤ st.stock_quantity ∧
         -quantity_change ≤ st.reserved_stock then
        (true, { st with
                  stock_quantity := st.stock_quantity + quantity_change,
                  reserved_stock := st.reserved_stock + quantity_change })
      else
        (false, st)
    else
      (true, { st with stock_quantity := st.stock_quantity + quantity_change })

/-- One atomic ledger step: the state reached after an
`update_stock_atomic` call (successful or not). -/
def applyOp (st : ProductStock) (op : Int × Bool) : ProductStock :=
  (update_stock_atomic st op.1 op.2).2

/-- A serialized execution of a sequence of atomic ledger operations.  Each
`update_stock_atomic` is an indivisible read-check-write against the product
document, so every concurrent execution is equivalent to some such
sequence. -/
def applyOps (st : ProductStock) (ops : List (Int × Bool)) : ProductStock :=
  ops.foldl applyOp st

/-- Database error raised by the driver inside `update_stock_atomic`
(modelled by its message). -/
abbrev DbError := String

/-- Modelled from the spec: `BaseRepository._handle_db_exception`
(core/repository.py, not under the provided sources) logs the database
error and re-raises it — the in-file comment at `ProductRepository.update`
("Re-raise a exceção que _handle_db_exception levantou") records exactly
this, and the spec says infrastructure failures propagate as errors. -/
def handle_db_exception {α : Type} (e : DbError) : Except DbError α :=
  Except.error e

/-- Embeds `ProductRepository.update_stock_atomic` together with its
infrastructure-failure path: `find_one_and_update` either raises a database
error (`dbError = some e`), in which case the except-branch forwards it to
`handle_db_exception`, or completes atomically. -/
def update_stock_atomic_run (st : ProductStock) (quantity_change : Int)
    (is_reservation : Bool) (dbError : Option DbError) :
    Except DbError (Bool × ProductStock) :=
  match dbError with
  | some e => handle_db_exception e
  | none => Except.ok (update_stock_atomic st quantity_change is_reservation)

/-- Stock fields of the product document as seen by the general
`ProductRepository.update`. -/
structure ProductDoc where
  stock_quantity : Int
  reserved_stock : Int
deriving Repr, DecidableEq

/-- The protected keys of `ProductRepository.update` (sales/repository.py,
line 159): payload keys in this list are never copied into the `$set`
document. -/
def protected_keys : List String :=
  ["_id", "id", "created_at", "price_history", "reserved_stock"]

/-- Effect of one `$set` entry on the stock fields of the document. -/
def apply_set_field (d : ProductDoc) (k : String) (v : Int) : ProductDoc :=
  if k = "stock_quantity" then { d with stock_quantity := v }
  else if k = "reserved_stock" then { d with reserved_stock := v }
  else d

/-- Embeds `ProductRepository.update` (sales/repository.py, lines 114-186)
restricted to the stock fields.  The price handling of that function only
writes the keys "prices" and "price_history" and is therefore invisible
here; every other payload key is copied into the `$set` document unless it
is in `protected_keys`, and `update_one` applies the `$set`. -/
def product_update (d : ProductDoc) (payload : List (String × Int)) :
    ProductDoc :=
  payload.foldl
    (fun doc kv =>
      if kv.1 ∈ protected_keys then doc else apply_set_field doc kv.1 kv.2)
    d

/-- Product identifiers (the `_id` of a product document). -/
abbrev Pid := Nat

/-- Reservation identifiers: the `order_ref` string of the order the
reservation belongs to. -/
abbrev ResId := String

/-- Order lifecycle states (the status strings of
`OrderService.update_order_status`). -/
inductive OrderStatus where
  | pending
  | confirmed
  | processing
  | awaiting_shipment
  | shipped
  | delivered
  | cancelled
  | failed
  | returned
deriving Repr, DecidableEq

/-- The transition table of `OrderService.update_order_status`
(people/services.py, lines 372-382): `valid_transitions` maps each current
status to its allowed targets. -/
def valid_transitions : OrderStatus → List OrderStatus
  | .pending => [.confirmed, .processing, .cancelled, .failed]
  | .confirmed => [.processing, .awaiting_shipment, .cancelled, .failed]
  | .processing => [.awaiting_shipment, .shipped, .cancelled, .failed]
  | .awaiting_shipment => [.shipped, .cancelled, .failed]
  | .shipped => [.delivered, .returned, .failed]
  | .delivered => [.returned]
  | .cancelled => []
  | .failed => []
  | .returned => []

/-- An order document: its reference, status and item list
(product id, quantity). -/
structure OrderDoc where
  order_ref : ResId
  status : OrderStatus
  items : List (Pid × Nat)
deriving Repr, DecidableEq

/-- The system state shared by the orchestration code: the product
collection (a total map — every id carries a stock record), the
reservation coordinator's in-memory manifest of `(reservation_id,
product_id, qty)` entries, the order collection, the recorded sale-income
transactions (by order ref) and the RFID disposition records (by order
ref). -/
structure SysState where
  products : Pid → ProductStock
  reservationItems : List (ResId × Pid × Nat)
  orders : List OrderDoc
  transactions : List ResId
  soldMarks : List ResId

/-- Pointwise update of the product collection. -/
def updProducts (f : Pid → ProductStock) (pid : Pid) (p : ProductStock) :
    Pid → ProductStock :=
  fun i => if i = pid then p else f i

/-- Quantity recorded in the coordinator's manifest for a
(reservation, product) pair: first matching entry. -/
def findQty : List (ResId × Pid × Nat) → ResId → Pid → Option Nat
  | [], _, _ => none
  | (r', p', q) :: rest, r, pid =>
    if r' = r ∧ p' = pid then some q else findQty rest r pid

/-- Removes the first manifest entry for a (reservation, product) pair. -/
def removeItem : List (ResId × Pid × Nat) → ResId → Pid →
    List (ResId × Pid × Nat)
  | [], _, _ => []
  | (r', p', q) :: rest, r, pid =>
    if r' = r ∧ p' = pid then rest else (r', p', q) :: removeItem rest r pid

/-- Product ids of all manifest entries belonging to one reservation. -/
def resPids (l : List (ResId × Pid × Nat)) (r : ResId) : List Pid :=
  (l.filter (fun e => e.1 = r)).map (fun e => e.2.1)

/-- Modelled from the spec: `StockReservationService.reserve_stock`
(sales/reservation_service.py, not under the provided sources) applies the
reserve pattern — `StockLedger.adjust` with `delta_reserved = +q` — through
the atomic conditional update and, on success, records the item under the
reservation id in the coordinator's manifest; on guard failure it reports
failure with no effect. -/
def reserve_stock (s : SysState) (r : ResId) (pid : Pid) (qty : Nat) :
    Bool × SysState :=
  let res := update_stock_atomic (s.products pid) (qty : Int) true
  if res.1 then
    (true, { s with
              products := updProducts s.products pid res.2,
              reservationItems := s.reservationItems ++ [(r, pid, qty)] })
  else
    (false, s)

/-- Modelled from the spec: `StockReservationService._release_or_confirm_single`
(sales/reservation_service.py, not under the provided sources) releases
(`confirm = false`: `delta_reserved = -q`) or confirms (`confirm = true`:
`delta_physical = delta_reserved = -q`) the single item the manifest holds
for this (reservation, product) pair, then drops the manifest entry;
releasing a never-reserved item is a no-op (idempotent, per the spec). -/
def release_or_confirm_single (s : SysState) (r : ResId) (pid : Pid)
    (confirm : Bool) : SysState :=
  match findQty s.reservationItems r pid with
  | none => s
  | some qty =>
    let res := update_stock_atomic (s.products pid) (-(qty : Int)) (!confirm)
    { s with
       products := updProducts s.products pid res.2,
       reservationItems := removeItem s.reservationItems r pid }

/-- Releases (`c = false`) or confirms (`c = true`) the listed products of
one reservation, one `release_or_confirm_single` call each. -/
def applyEach (s : SysState) (r : ResId) (c : Bool) (ps : List Pid) :
    SysState :=
  ps.foldl (fun s' pid => release_or_confirm_single s' r pid c) s

/-- Modelled from the spec: `StockReservationService.release_reservation`
applies the release pattern for every item of the reservation. -/
def release_reservation (s : SysState) (r : ResId) : SysState :=
  applyEach s r false (resPids s.reservationItems r)

/-- Modelled from the spec: `StockReservationService.confirm_reservation`
applies the confirm pattern for every item of the reservation. -/
def confirm_reservation (s : SysState) (r : ResId) : SysState :=
  applyEach s r true (resPids s.reservationItems r)

/-- Typed failures of `OrderService.create_order` past the item-processing
stage: the HTTP 409 conflict on reservation failure and the HTTP 500 on
persistence failure. -/
inductive OrderError where
  | conflict
  | persistenceFailure
deriving Repr, DecidableEq

/-- The reservation phase of `OrderService.create_order` (people/services.py,
lines 310-311): one `reserve_stock` attempt per item, each independently
atomic; the per-item outcomes are collected (`asyncio.gather`).  The
serialized order is the list order; any interleaving of the atomic
per-product steps over distinct products is equivalent to it. -/
def reserve_phase (r : ResId) : SysState → List (Pid × Nat) →
    List ((Pid × Nat) × Bool) × SysState
  | s, [] => ([], s)
  | s, it :: rest =>
    let hd := reserve_stock s r it.1 it.2
    let tl := reserve_phase r hd.2 rest
    ((it, hd.1) :: tl.1, tl.2)

/-- Product ids of the per-item reserve attempts that succeeded
(`successful_products` in people/services.py, line 317). -/
def succPids (results : List ((Pid × Nat) × Bool)) : List Pid :=
  (results.filter (fun x => x.2)).map (fun x => x.1.1)

/-- Embeds `OrderService.create_order` (people/services.py, lines 307-336)
from the reservation step on (item validation, pricing and reference
generation happen before and abort without touching the ledger).  The order
reference `r` doubles as reservation id.  If any per-item reserve fails, a
compensating release is issued for every item that succeeded and the call
fails with a conflict; otherwise the order is persisted in `pending` state
(`persistOk` models the outcome of the `order_repo.create` write — on
failure the whole reservation is released and the persistence error is
surfaced). -/
def create_order (s : SysState) (r : ResId) (items : List (Pid × Nat))
    (persistOk : Bool) : SysState × Except OrderError OrderDoc :=
  if ((reserve_phase r s items).1.filter (fun x => !x.2)) ≠ [] then
    (applyEach (reserve_phase r s items).2 r false
       (succPids (reserve_phase r s items).1),
     Except.error OrderError.conflict)
  else if persistOk then
    ({ (reserve_phase r s items).2 with
        orders := (reserve_phase r s items).2.orders ++
          [⟨r, .pending, items⟩] },
     Except.ok ⟨r, .pending, items⟩)
  else
    (release_reservation (reserve_phase r s items).2 r,
     Except.error OrderError.persistenceFailure)

/-- Service-level failures of `OrderService.update_order_status`: order not
found (HTTP 404) and invalid transition (HTTP 400). -/
inductive SvcError where
  | notFound
  | invalidTransition
deriving Repr, DecidableEq

/-- Order lookup by reference in the order collection. -/
def findOrder : List OrderDoc → ResId → Option OrderDoc
  | [], _ => none
  | o :: rest, r => if o.order_ref = r then some o else findOrder rest r

/-- The final status write of `update_order_status`. -/
def setOrderStatus (l : List OrderDoc) (r : ResId) (st : OrderStatus) :
    List OrderDoc :=
  l.map (fun o => if o.order_ref = r then { o with status := st } else o)

/-- Embeds `OrderService.update_order_status` (people/services.py, lines
338-473).  In order: fetch the order; same-status requests return the
unchanged order; transitions absent from `valid_transitions` are rejected
before any side effect; then (1) the reservation action — release on
entering `cancelled/failed/returned`, confirm on entering
`confirmed/processing` from `pending` (the code also lists the string
"paid", which is not one of the nine statuses and can never pass the
transition-table check); (2) the transaction record — `BankingService.
record_transaction` (banking/services.py, not under the provided sources)
is modelled from the spec as appending a transaction record, done when the
target is `processing/awaiting_shipment` (again plus the unreachable
"paid") and the current status is `pending/confirmed`; (3) on `delivered`,
`StockService.mark_items_as_sold` (modules/stock, not under the provided
sources) is modelled from the spec as appending a disposition record;
finally the status is written to the order document. -/
def update_order_status (s : SysState) (ref : ResId)
    (new_status : OrderStatus) : SysState × Except SvcError OrderDoc :=
  match findOrder s.orders ref with
  | none => (s, Except.error SvcError.notFound)
  | some order =>
    if new_status = order.status then
      (s, Except.ok order)
    else if new_status ∉ valid_transitions order.status then
      (s, Except.error SvcError.invalidTransition)
    else
      let s1 :=
        if new_status ∈ [OrderStatus.cancelled, .failed, .returned] ∧
           order.status ≠ new_status then
          release_reservation s order.order_ref
        else if new_status ∈ [OrderStatus.confirmed, .processing] ∧
                order.status = .pending then
          confirm_reservation s order.order_ref
        else s
      let s2 :=
        if new_status ∈ [OrderStatus.processing, .awaiting_shipment] ∧
           order.status ∈ [OrderStatus.pending, .confirmed] then
          { s1 with transactions := s1.transactions ++ [order.order_ref] }
        else s1
      let s3 :=
        if new_status = .delivered then
          { s2 with soldMarks := s2.soldMarks ++ [order.order_ref] }
        else s2
      ({ s3 with orders := setOrderStatus s3.orders ref new_status },
       Except.ok { order with status := new_status })

/-- Concrete product collection for the reservation-failure scenario:
product 1 has 5 available units, product 2 has 1. -/
def productsAB : Pid → ProductStock :=
  fun p => if p = 1 then ⟨5, 0⟩ else if p = 2 then ⟨1, 0⟩ else ⟨0, 0⟩

/-- Concrete initial state for the reservation-failure scenario. -/
def stateAB : SysState := ⟨productsAB, [], [], [], []⟩

/-- Concrete pending order with one reserved item for the status-transition
scenarios. -/
def orderD : OrderDoc := ⟨"ORD-7", .pending, [(1, 2)]⟩

/-- Concrete state holding `orderD`, its stock record (10 physical, 2
reserved) and its manifest entry. -/
def stateD : SysState :=
  ⟨fun p => if p = 1 then ⟨10, 2⟩ else ⟨0, 0⟩,
   [("ORD-7", 1, 2)], [orderD], [], []⟩

/-- Concrete cancelled (terminal) order. -/
def orderTerm : OrderDoc := ⟨"ORD-9", .cancelled, [(1, 1)]⟩

/-- Concrete state holding the terminal order `orderTerm`. -/
def stateTerm : SysState := ⟨fun _ => ⟨3, 1⟩, [], [orderTerm], [], []⟩

/-! ### Characterization of the four ledger usage patterns -/

theorem usa_reserve_pos (st : ProductStock) (q : Int) (hq : 0 < q) :
    update_stock_atomic st q true =
      if q ≤ st.stock_quantity then
        (true, { st with reserved_stock := st.reserved_stock + q })
      else (false, st) := by
  have hcond : ((0 < q → q ≤ st.stock_quantity) ∧
      (q < 0 → -q ≤ st.reserved_stock)) ↔ q ≤ st.stock_quantity := by
    constructor
    · intro h; exact h.1 hq
    · intro h; exact ⟨fun _ => h, fun hneg => absurd hneg (by omega)⟩
  simp only [update_stock_atomic, if_true, hcond]

theorem usa_release (st : ProductStock) (q : Int) (hq : 0 < q) :
    update_stock_atomic st (-q) true =
      if q ≤ st.reserved_stock then
        (true, { st with reserved_stock := st.reserved_stock - q })
      else (false, st) := by
  have hcond : ((0 < -q → -q ≤ st.stock_quantity) ∧
      (-q < 0 → -(-q) ≤ st.reserved_stock)) ↔ q ≤ st.reserved_stock := by
    constructor
    · intro h; have := h.2 (by omega); omega
    · intro h; exact ⟨fun hpos => absurd hpos (by omega), fun _ => by omega⟩
  simp only [update_stock_atomic, if_true, hcond]
  have : st.reserved_stock + -q = st.reserved_stock - q := by omega
  rw [this]

theorem usa_confirm (st : ProductStock) (q : Int) (hq : 0 < q) :
    update_stock_atomic st (-q) false =
      if q ≤ st.stock_quantity ∧ q ≤ st.reserved_stock then
        (true, ⟨st.stock_quantity - q, st.reserved_stock - q⟩)
      else (false, st) := by
  have hneg : (-q < 0) := by omega
  have hcond : (-(-q) ≤ st.stock_quantity ∧ -(-q) ≤ st.reserved_stock) ↔
      (q ≤ st.stock_quantity ∧ q ≤ st.reserved_stock) := by
    constructor <;> intro h <;> exact ⟨by omega, by omega⟩
  simp only [update_stock_atomic, Bool.false_eq_true, if_false, if_pos hneg,
    hcond]
  have h1 : st.stock_quantity + -q = st.stock_quantity - q := by omega
  have h2 : st.reserved_stock + -q = st.reserved_stock - q := by omega
  rw [h1, h2]

theorem usa_restock (st : ProductStock) (q : Int) (hq : 0 ≤ q) :
    update_stock_atomic st q false =
      (true, { st with stock_quantity := st.stock_quantity + q }) := by
  have : ¬ (q < 0) := by omega
  simp only [update_stock_atomic, Bool.false_eq_true, if_false, if_neg this]

theorem usa_nonneg (st : ProductStock) (qc : Int) (isRes : Bool)
    (h1 : 0 ≤ st.stock_quantity) (h2 : 0 ≤ st.reserved_stock) :
    0 ≤ (update_stock_atomic st qc isRes).2.stock_quantity ∧
    0 ≤ (update_stock_atomic st qc isRes).2.reserved_stock := by
  unfold update_stock_atomic
  cases isRes <;> split_ifs <;> constructor <;> simp_all <;> omega

/-! ### Claims C1, C3, C6, C8, C9 -/

/-- C1 (counterexample): the claimed guard `physical − reserved ≥ q` and the
no-overselling bound fail on the code.  For a product with
`stock_quantity = 10, reserved_stock = 0`, two reserve(6) attempts (each an
atomic `update_stock_atomic` with `is_reservation = true`) BOTH succeed —
the second still sees `stock_quantity = 10 ≥ 6` because the code checks
physical stock only — and the final `reserved_stock` is 12, not 6. -/
theorem c1_counterexample :
    (update_stock_atomic ⟨10, 0⟩ 6 true).1 = true ∧
    (update_stock_atomic (update_stock_atomic ⟨10, 0⟩ 6 true).2 6 true).1 =
      true ∧
    (update_stock_atomic (update_stock_atomic ⟨10, 0⟩ 6 true).2 6
        true).2.reserved_stock = 12 ∧
    ¬ (update_stock_atomic (update_stock_atomic ⟨10, 0⟩ 6 true).2 6
        true).2.reserved_stock = 6 := by
  decide

/-- C1 (amended): the atomic guard applied to a reserve of quantity `q > 0`
is `stock_quantity ≥ q` — physical stock only, `reserved_stock` is not
consulted — and a successful reserve leaves `stock_quantity` unchanged while
adding `q` to `reserved_stock`.  Consequently the sum of successfully
reserved quantities is not bounded by the available stock. -/
theorem c1_reserve_guard_physical_only (st : ProductStock) (q : Int)
    (hq : 0 < q) :
    ((update_stock_atomic st q true).1 = true ↔ q ≤ st.stock_quantity) ∧
    ((update_stock_atomic st q true).1 = true →
      (update_stock_atomic st q true).2 =
        { st with reserved_stock := st.reserved_stock + q }) := by
  rw [usa_reserve_pos st q hq]
  by_cases h : q ≤ st.stock_quantity <;> simp [h]

/-- Witness for C1 (amended) at the scenario product
`stock_quantity = 10, reserved_stock = 0` with `q = 6`. -/
theorem c1_reserve_guard_physical_only_witness :
    ((update_stock_atomic ⟨10, 0⟩ 6 true).1 = true ↔
      (6 : Int) ≤ (⟨10, 0⟩ : ProductStock).stock_quantity) ∧
    ((update_stock_atomic ⟨10, 0⟩ 6 true).1 = true →
      (update_stock_atomic ⟨10, 0⟩ 6 true).2 =
        { (⟨10, 0⟩ : ProductStock) with
            reserved_stock := (⟨10, 0⟩ : ProductStock).reserved_stock + 6 }) :=
  c1_reserve_guard_physical_only ⟨10, 0⟩ 6 (by decide)

/-- C3 (counterexample): the invariant `reserved_stock ≤ stock_quantity` is
not preserved by the ledger operations.  Starting from the state
`stock_quantity = 10, reserved_stock = 0` (which satisfies the invariant),
the two-reserve sequence of Scenario A ends at `reserved_stock = 12 >
stock_quantity = 10`. -/
theorem c3_counterexample :
    ((⟨10, 0⟩ : ProductStock).reserved_stock ≤
      (⟨10, 0⟩ : ProductStock).stock_quantity) ∧
    ¬ ((applyOps ⟨10, 0⟩ [(6, true), (6, true)]).reserved_stock ≤
       (applyOps ⟨10, 0⟩ [(6, true), (6, true)]).stock_quantity) := by
  decide

/-- C3 (amended): the invariant the ledger operations do preserve is
non-negativity of both persisted fields: starting from `stock_quantity ≥ 0`
and `reserved_stock ≥ 0`, every sequence of `update_stock_atomic` calls
(reserve, release, confirm, restock, successful or not) keeps both fields
≥ 0.  The spec's `reserved_stock ≤ stock_quantity` (equivalently
`available_stock ≥ 0`) is not an invariant of the code. -/
theorem c3_nonneg_preserved (st : ProductStock) (ops : List (Int × Bool))
    (h1 : 0 ≤ st.stock_quantity) (h2 : 0 ≤ st.reserved_stock) :
    0 ≤ (applyOps st ops).stock_quantity ∧
    0 ≤ (applyOps st ops).reserved_stock := by
  induction ops generalizing st with
  | nil => exact ⟨h1, h2⟩
  | cons op rest ih =>
    have hstep := usa_nonneg st op.1 op.2 h1 h2
    simpa [applyOps, applyOp] using ih _ hstep.1 hstep.2

/-- Witness for C3 (amended) on the Scenario A operation sequence. -/
theorem c3_nonneg_preserved_witness :
    0 ≤ (applyOps ⟨10, 0⟩ [(6, true), (6, true)]).stock_quantity ∧
    0 ≤ (applyOps ⟨10, 0⟩ [(6, true), (6, true)]).reserved_stock :=
  c3_nonneg_preserved ⟨10, 0⟩ [(6, true), (6, true)] (by decide) (by decide)

/-- C6 (confirmed): a confirm of quantity `q > 0` (`update_stock_atomic`
with `is_reservation = false` and `quantity_change = -q`) succeeds exactly
when `stock_quantity ≥ q` and `reserved_stock ≥ q`, and a successful
confirm decrements both fields by exactly `q`, leaving `available_stock`
unchanged. -/
theorem c6_confirm_preserves_available (st : ProductStock) (q : Int)
    (hq : 0 < q) :
    ((update_stock_atomic st (-q) false).1 = true ↔
      q ≤ st.stock_quantity ∧ q ≤ st.reserved_stock) ∧
    ((update_stock_atomic st (-q) false).1 = true →
      (update_stock_atomic st (-q) false).2.stock_quantity =
        st.stock_quantity - q ∧
      (update_stock_atomic st (-q) false).2.reserved_stock =
        st.reserved_stock - q ∧
      available_stock (update_stock_atomic st (-q) false).2 =
        available_stock st) := by
  rw [usa_confirm st q hq]
  by_cases h : q ≤ st.stock_quantity ∧ q ≤ st.reserved_stock <;>
    simp [h, available_stock]

/-- Witness for C6 at `stock_quantity = 10, reserved_stock = 4, q = 4`. -/
theorem c6_confirm_preserves_available_witness :
    ((update_stock_atomic ⟨10, 4⟩ (-4) false).1 = true ↔
      (4 : Int) ≤ (⟨10, 4⟩ : ProductStock).stock_quantity ∧
      (4 : Int) ≤ (⟨10, 4⟩ : ProductStock).reserved_stock) ∧
    ((update_stock_atomic ⟨10, 4⟩ (-4) false).1 = true →
      (update_stock_atomic ⟨10, 4⟩ (-4) false).2.stock_quantity =
        (⟨10, 4⟩ : ProductStock).stock_quantity - 4 ∧
      (update_stock_atomic ⟨10, 4⟩ (-4) false).2.reserved_stock =
        (⟨10, 4⟩ : ProductStock).reserved_stock - 4 ∧
      available_stock (update_stock_atomic ⟨10, 4⟩ (-4) false).2 =
        available_stock ⟨10, 4⟩) :=
  c6_confirm_preserves_available ⟨10, 4⟩ 4 (by decide)

/-- C8 (counterexample): the general `ProductRepository.update` does write
`stock_quantity`: the protected-key filter shields only `_id`, `id`,
`created_at`, `price_history` and `reserved_stock`, so the payload
`{"stock_quantity": 999}` overwrites the stored physical quantity. -/
theorem c8_counterexample :
    (product_update ⟨10, 2⟩ [("stock_quantity", 999)]).stock_quantity =
      999 ∧
    ¬ (product_update ⟨10, 2⟩ [("stock_quantity", 999)]).stock_quantity =
      (⟨10, 2⟩ : ProductDoc).stock_quantity := by
  decide

/-- C8 (amended): only `reserved_stock` is shielded from the general
product update — for every payload, `ProductRepository.update` leaves
`reserved_stock` unchanged, while `stock_quantity` is not protected and can
be overwritten by an ordinary update payload. -/
theorem c8_reserved_stock_protected (d : ProductDoc)
    (payload : List (String × Int)) :
    (product_update d payload).reserved_stock = d.reserved_stock := by
  induction payload generalizing d with
  | nil => rfl
  | cons kv rest ih =>
    have step : product_update d (kv :: rest) =
        product_update
          (if kv.1 ∈ protected_keys then d else apply_set_field d kv.1 kv.2)
          rest := rfl
    rw [step, ih]
    by_cases hmem : kv.1 ∈ protected_keys
    · rw [if_pos hmem]
    · rw [if_neg hmem]
      unfold apply_set_field
      have hrs : kv.1 ≠ "reserved_stock" := by
        intro h; exact hmem (by rw [h]; decide)
      by_cases h1 : kv.1 = "stock_quantity"
      · rw [if_pos h1]
      · rw [if_neg h1, if_neg hrs]

/-- C9 (confirmed): `update_stock_atomic` signals insufficient stock by its
boolean result — a failed guard yields `false` with the document unchanged,
no exception — while a database error is propagated to the caller (via
`handle_db_exception`, which re-raises) rather than folded into the `false`
result. -/
theorem c9_guard_vs_infrastructure (st : ProductStock) (qc : Int)
    (isRes : Bool) :
    (update_stock_atomic_run st qc isRes none =
      Except.ok (update_stock_atomic st qc isRes)) ∧
    ((update_stock_atomic st qc isRes).1 = false →
      (update_stock_atomic st qc isRes).2 = st) ∧
    (∀ e : DbError, update_stock_atomic_run st qc isRes (some e) =
      Except.error e) := by
  refine ⟨rfl, ?_, fun _ => rfl⟩
  unfold update_stock_atomic
  cases isRes <;> split_ifs <;> simp_all

/-- Witness for C9: guard failure (reserve 6 from 3 physical units) returns
`false` leaving the document unchanged, and a database error is raised,
not folded into the boolean. -/
theorem c9_guard_vs_infrastructure_witness :
    (update_stock_atomic_run ⟨3, 1⟩ 6 true none =
      Except.ok (update_stock_atomic ⟨3, 1⟩ 6 true)) ∧
    ((update_stock_atomic ⟨3, 1⟩ 6 true).2 = ⟨3, 1⟩) ∧
    (update_stock_atomic_run ⟨3, 1⟩ 6 true (some "db down") =
      Except.error "db down") :=
  ⟨(c9_guard_vs_infrastructure ⟨3, 1⟩ 6 true).1,
   (c9_guard_vs_infrastructure ⟨3, 1⟩ 6 true).2.1 (by decide),
   (c9_guard_vs_infrastructure ⟨3, 1⟩ 6 true).2.2 "db down"⟩

/-! ### Frame lemmas for the coordinator operations -/

theorem rocs_frame (s : SysState) (r : ResId) (pid : Pid) (c : Bool) :
    (release_or_confirm_single s r pid c).orders = s.orders ∧
    (release_or_confirm_single s r pid c).transactions = s.transactions ∧
    (release_or_confirm_single s r pid c).soldMarks = s.soldMarks := by
  unfold release_or_confirm_single
  cases findQty s.reservationItems r pid <;> simp

theorem applyEach_frame (r : ResId) (c : Bool) (ps : List Pid)
    (s : SysState) :
    (applyEach s r c ps).orders = s.orders ∧
    (applyEach s r c ps).transactions = s.transactions ∧
    (applyEach s r c ps).soldMarks = s.soldMarks := by
  induction ps generalizing s with
  | nil => exact ⟨rfl, rfl, rfl⟩
  | cons p rest ih =>
    simp only [applyEach, List.foldl_cons]
    obtain ⟨h1, h2, h3⟩ := rocs_frame s r p c
    obtain ⟨g1, g2, g3⟩ := ih (release_or_confirm_single s r p c)
    exact ⟨g1.trans h1, g2.trans h2, g3.trans h3⟩

theorem confirm_reservation_frame (s : SysState) (r : ResId) :
    (confirm_reservation s r).orders = s.orders ∧
    (confirm_reservation s r).transactions = s.transactions ∧
    (confirm_reservation s r).soldMarks = s.soldMarks :=
  applyEach_frame r true (resPids s.reservationItems r) s

theorem release_reservation_frame (s : SysState) (r : ResId) :
    (release_reservation s r).orders = s.orders ∧
    (release_reservation s r).transactions = s.transactions ∧
    (release_reservation s r).soldMarks = s.soldMarks :=
  applyEach_frame r false (resPids s.reservationItems r) s

/-! ### Claims C5, C7, C10 -/

/-- C5 (confirmed): a requested status change whose (from, to) pair, with
from ≠ to, is absent from the `valid_transitions` table is rejected with
`invalidTransition` and the whole system state — products, reservation
manifest, orders, transactions, disposition records — is returned
untouched: the rejection happens before any side effect. -/
theorem c5_invalid_transition_rejected (s : SysState) (ref : ResId)
    (order : OrderDoc) (new_status : OrderStatus)
    (hfind : findOrder s.orders ref = some order)
    (hne : new_status ≠ order.status)
    (hinv : new_status ∉ valid_transitions order.status) :
    update_order_status s ref new_status =
      (s, Except.error SvcError.invalidTransition) := by
  unfold update_order_status
  simp only [hfind]
  rw [if_neg hne, if_pos hinv]

/-- Witness for C5: `pending → shipped` is not in the table and is rejected
with the state unchanged. -/
theorem c5_invalid_transition_rejected_witness :
    update_order_status stateD "ORD-7" OrderStatus.shipped =
      (stateD, Except.error SvcError.invalidTransition) :=
  c5_invalid_transition_rejected stateD "ORD-7" orderD OrderStatus.shipped
    rfl (by decide) (by decide)

/-- C7 (counterexample): the transition `pending → confirmed` confirms the
reservation (the ledger is debited: product 1 goes from 10 physical / 2
reserved to 8 / 0) but does NOT issue a transaction record request — the
code records a transaction only when the target status is `processing`,
`awaiting_shipment` or "paid", not `confirmed` — so "a transaction record
request is issued exactly once" fails for `pending → confirmed`. -/
theorem c7_counterexample :
    (update_order_status stateD "ORD-7" OrderStatus.confirmed).1.transactions
        = [] ∧
    (update_order_status stateD "ORD-7" OrderStatus.confirmed).1.products 1
        = ⟨8, 0⟩ ∧
    ¬ ((update_order_status stateD "ORD-7"
        OrderStatus.confirmed).1.transactions.length = 1) := by
  refine ⟨rfl, rfl, ?_⟩
  decide

/-- C7 (amended): from `pending`, a transition into `confirmed` or
`processing` triggers `confirm_reservation(order_ref)`, but the banking
transaction record is issued only when the target is `processing` (or
`awaiting_shipment`, unreachable from `pending`): `pending → processing`
records exactly one transaction, `pending → confirmed` records none. -/
theorem c7_confirm_and_transaction (s : SysState) (ref : ResId)
    (order : OrderDoc) (new_status : OrderStatus)
    (hfind : findOrder s.orders ref = some order)
    (hpend : order.status = OrderStatus.pending)
    (hnew : new_status = OrderStatus.confirmed ∨
            new_status = OrderStatus.processing) :
    (update_order_status s ref new_status).1.products =
      (confirm_reservation s order.order_ref).products ∧
    (update_order_status s ref new_status).1.transactions =
      s.transactions ++
        (if new_status = OrderStatus.processing then [order.order_ref]
         else []) ∧
    (update_order_status s ref new_status).2 =
      Except.ok { order with status := new_status } := by
  have hframe := confirm_reservation_frame s order.order_ref
  unfold update_order_status
  simp only [hfind]
  rcases hnew with h | h <;> subst h <;>
    simp +decide [hpend, hframe.2.1]

/-- Witness for C7 (amended) at the concrete pending order `orderD`:
`pending → confirmed` applies the ledger confirm and records no
transaction. -/
theorem c7_confirm_and_transaction_witness :
    (update_order_status stateD "ORD-7" OrderStatus.confirmed).1.products =
      (confirm_reservation stateD orderD.order_ref).products ∧
    (update_order_status stateD "ORD-7"
        OrderStatus.confirmed).1.transactions =
      stateD.transactions ++
        (if OrderStatus.confirmed = OrderStatus.processing then
          [orderD.order_ref] else []) ∧
    (update_order_status stateD "ORD-7" OrderStatus.confirmed).2 =
      Except.ok { orderD with status := OrderStatus.confirmed } :=
  c7_confirm_and_transaction stateD "ORD-7" orderD OrderStatus.confirmed
    rfl rfl (Or.inl rfl)

/-- C10 (confirmed): requesting a transition to the order's current status
is a no-op: the unchanged order is returned and the system state — ledger,
manifest, orders, transactions, dispositions — is returned untouched,
whatever the current status (terminal ones included). -/
theorem c10_same_status_noop (s : SysState) (ref : ResId) (order : OrderDoc)
    (hfind : findOrder s.orders ref = some order) :
    update_order_status s ref order.status = (s, Except.ok order) := by
  unfold update_order_status
  simp only [hfind, if_true]

/-- Witness for C10 at a terminal (cancelled) order. -/
theorem c10_same_status_noop_witness :
    update_order_status stateTerm "ORD-9" OrderStatus.cancelled =
      (stateTerm, Except.ok orderTerm) :=
  c10_same_status_noop stateTerm "ORD-9" orderTerm rfl

/-! ### Manifest bookkeeping lemmas -/

theorem bool_eq_false {b : Bool} (h : ¬ b = true) : b = false := by
  cases b
  · rfl
  · exact absurd rfl h

theorem findQty_append (l1 l2 : List (ResId × Pid × Nat)) (r : ResId)
    (pid : Pid) :
    findQty (l1 ++ l2) r pid =
      match findQty l1 r pid with
      | some q => some q
      | none => findQty l2 r pid := by
  induction l1 with
  | nil => simp [findQty]
  | cons e rest ih =>
    obtain ⟨r1, p1, q1⟩ := e
    by_cases h : r1 = r ∧ p1 = pid
    · simp [findQty, h]
    · simp [findQty, h, ih]

theorem findQty_append_none (l1 l2 : List (ResId × Pid × Nat)) (r : ResId)
    (pid : Pid) (h : findQty l1 r pid = none) :
    findQty (l1 ++ l2) r pid = findQty l2 r pid := by
  rw [findQty_append, h]

theorem findQty_singleton_self (r : ResId) (p : Pid) (q : Nat) :
    findQty [(r, p, q)] r p = some q := by
  simp [findQty]

theorem findQty_singleton_ne (r : ResId) (pid : Pid) (e : ResId × Pid × Nat)
    (h : e.2.1 ≠ pid) : findQty [e] r pid = none := by
  obtain ⟨r1, p1, q1⟩ := e
  have hc : ¬ (r1 = r ∧ p1 = pid) := fun hc => h hc.2
  simp [findQty, hc]

theorem findQty_removeItem_ne (l : List (ResId × Pid × Nat)) (r : ResId)
    (p' pid : Pid) (h : p' ≠ pid) :
    findQty (removeItem l r p') r pid = findQty l r pid := by
  induction l with
  | nil => rfl
  | cons e rest ih =>
    obtain ⟨r1, p1, q1⟩ := e
    by_cases hc : r1 = r ∧ p1 = p'
    · have hne : ¬ (r1 = r ∧ p1 = pid) := by
        intro hx
        exact h (by rw [← hc.2]; exact hx.2)
      simp [removeItem, findQty, hc, hne, h, Ne.symm h]
    · by_cases h2 : r1 = r ∧ p1 = pid <;>
        simp [removeItem, findQty, hc, h2, ih, h, Ne.symm h]

theorem fresh_resPids_nil (l : List (ResId × Pid × Nat)) (r : ResId)
    (h : ∀ pid, findQty l r pid = none) : resPids l r = [] := by
  induction l with
  | nil => rfl
  | cons e rest ih =>
    obtain ⟨r1, p1, q1⟩ := e
    by_cases hr : r1 = r
    · exfalso
      have h1 := h p1
      simp [findQty, hr] at h1
    · have hrest : ∀ pid, findQty rest r pid = none := by
        intro pid
        have := h pid
        simpa [findQty, hr] using this
      simpa [resPids, List.filter_cons, hr] using ih hrest

theorem resPids_append (l1 l2 : List (ResId × Pid × Nat)) (r : ResId) :
    resPids (l1 ++ l2) r = resPids l1 r ++ resPids l2 r := by
  simp [resPids, List.filter_append]

theorem resPids_singleton_self (r : ResId) (p : Pid) (q : Nat) :
    resPids [(r, p, q)] r = [p] := by
  simp [resPids]

/-! ### Pointwise product-map lemmas -/

theorem updProducts_same (f : Pid → ProductStock) (pid : Pid)
    (p : ProductStock) : updProducts f pid p pid = p := by
  simp [updProducts]

theorem updProducts_other (f : Pid → ProductStock) (pid : Pid)
    (p : ProductStock) (i : Pid) (h : i ≠ pid) :
    updProducts f pid p i = f i := by
  simp [updProducts, h]

/-! ### Success/failure shapes of the atomic update and of reserve_stock -/

theorem usa_release_ok (st : ProductStock) (q : Int) (h0 : 0 ≤ q)
    (hle : q ≤ st.reserved_stock) :
    update_stock_atomic st (-q) true =
      (true, { st with reserved_stock := st.reserved_stock - q }) := by
  have hcond : (0 < -q → -q ≤ st.stock_quantity) ∧
      (-q < 0 → -(-q) ≤ st.reserved_stock) :=
    ⟨fun hpos => absurd hpos (by omega), fun _ => by omega⟩
  simp only [update_stock_atomic, if_true, if_pos hcond]
  have he : st.reserved_stock + -q = st.reserved_stock - q := by omega
  rw [he]

theorem usa_res_success (st : ProductStock) (qc : Int)
    (h : (update_stock_atomic st qc true).1 = true) :
    (update_stock_atomic st qc true).2 =
      { st with reserved_stock := st.reserved_stock + qc } := by
  unfold update_stock_atomic at *
  split_ifs at * <;> simp_all

theorem reserve_stock_spec (s : SysState) (r : ResId) (p : Pid) (q : Nat) :
    ((reserve_stock s r p q).1 = true ∧
     (reserve_stock s r p q).2.products =
       updProducts s.products p
         { s.products p with
            reserved_stock := (s.products p).reserved_stock + (q : Int) } ∧
     (reserve_stock s r p q).2.reservationItems =
       s.reservationItems ++ [(r, p, q)]) ∨
    ((reserve_stock s r p q).1 = false ∧ (reserve_stock s r p q).2 = s) := by
  by_cases hok : (update_stock_atomic (s.products p) (q : Int) true).1 = true
  · left
    refine ⟨by simp [reserve_stock, hok], ?_, by simp [reserve_stock, hok]⟩
    simp only [reserve_stock, hok, if_true]
    rw [usa_res_success _ _ hok]
  · right
    have hf := bool_eq_false hok
    simp [reserve_stock, hf]

theorem reserve_stock_orders (s : SysState) (r : ResId) (p : Pid) (q : Nat) :
    (reserve_stock s r p q).2.orders = s.orders := by
  by_cases hok : (update_stock_atomic (s.products p) (q : Int) true).1 = true
  · simp [reserve_stock, hok]
  · simp [reserve_stock, bool_eq_false hok]

theorem reserve_stock_products_other (s : SysState) (r : ResId)
    (p' pid : Pid) (q : Nat) (h : p' ≠ pid) :
    (reserve_stock s r p' q).2.products pid = s.products pid := by
  rcases reserve_stock_spec s r p' q with ⟨_, hp, _⟩ | ⟨_, hst⟩
  · rw [hp, updProducts_other _ _ _ _ (Ne.symm h)]
  · rw [hst]

theorem reserve_stock_findQty_other (s : SysState) (r : ResId)
    (p' pid : Pid) (q : Nat) (h : p' ≠ pid) :
    findQty (reserve_stock s r p' q).2.reservationItems r pid =
      findQty s.reservationItems r pid := by
  rcases reserve_stock_spec s r p' q with ⟨_, _, hm⟩ | ⟨_, hst⟩
  · rw [hm, findQty_append]
    cases hcur : findQty s.reservationItems r pid
    · rw [findQty_singleton_ne r pid (r, p', q) h]
    · rfl
  · rw [hst]

/-! ### Frame and restore lemmas for the release folds -/

theorem rocs_products_other (s : SysState) (r : ResId) (p' pid : Pid)
    (c : Bool) (h : p' ≠ pid) :
    (release_or_confirm_single s r p' c).products pid = s.products pid := by
  unfold release_or_confirm_single
  cases hq : findQty s.reservationItems r p' with
  | none => rfl
  | some q =>
    show updProducts s.products p' _ pid = s.products pid
    exact updProducts_other _ _ _ _ (Ne.symm h)

theorem rocs_findQty_other (s : SysState) (r : ResId) (p' pid : Pid)
    (c : Bool) (h : p' ≠ pid) :
    findQty (release_or_confirm_single s r p' c).reservationItems r pid =
      findQty s.reservationItems r pid := by
  unfold release_or_confirm_single
  cases hq : findQty s.reservationItems r p' with
  | none => rfl
  | some q =>
    show findQty (removeItem s.reservationItems r p') r pid = _
    exact findQty_removeItem_ne _ _ _ _ h

theorem rocs_release_at (s : SysState) (r : ResId) (pid : Pid) (q : Nat)
    (hfq : findQty s.reservationItems r pid = some q)
    (hle : (q : Int) ≤ (s.products pid).reserved_stock) :
    ((release_or_confirm_single s r pid false).products pid).reserved_stock =
      (s.products pid).reserved_stock - q := by
  unfold release_or_confirm_single
  rw [hfq]
  show (updProducts s.products pid
      (update_stock_atomic (s.products pid) (-(q : Int)) true).2
        pid).reserved_stock = _
  rw [updProducts_same,
    usa_release_ok _ _ (by exact_mod_cast Nat.zero_le q) hle]

theorem applyEach_products_other (r : ResId) (c : Bool) (ps : List Pid)
    (s : SysState) (pid : Pid) (h : pid ∉ ps) :
    (applyEach s r c ps).products pid = s.products pid := by
  induction ps generalizing s with
  | nil => rfl
  | cons p rest ih =>
    have hp : p ≠ pid := fun he => h (he ▸ List.mem_cons_self p rest)
    have hr : pid ∉ rest := fun hm => h (List.mem_cons_of_mem _ hm)
    exact (ih (release_or_confirm_single s r p c) hr).trans
      (rocs_products_other s r p pid c hp)

theorem applyEach_release_restore (r : ResId) (ps : List Pid) (s : SysState)
    (pid : Pid) (q : Nat) (hnd : ps.Nodup) (hmem : pid ∈ ps)
    (hfq : findQty s.reservationItems r pid = some q)
    (hle : (q : Int) ≤ (s.products pid).reserved_stock) :
    ((applyEach s r false ps).products pid).reserved_stock =
      (s.products pid).reserved_stock - q := by
  induction ps generalizing s with
  | nil => cases hmem
  | cons p rest ih =>
    by_cases hp : p = pid
    · subst hp
      have hnotin : p ∉ rest := (List.nodup_cons.mp hnd).1
      have e1 : applyEach s r false (p :: rest) =
          applyEach (release_or_confirm_single s r p false) r false rest :=
        rfl
      rw [e1, applyEach_products_other r false rest _ p hnotin,
        rocs_release_at s r p q hfq hle]
    · have hrest : pid ∈ rest :=
        (List.mem_cons.mp hmem).resolve_left (fun he => hp he.symm)
      have hnd' : rest.Nodup := (List.nodup_cons.mp hnd).2
      have e1 : applyEach s r false (p :: rest) =
          applyEach (release_or_confirm_single s r p false) r false rest :=
        rfl
      have hfq' : findQty
          (release_or_confirm_single s r p false).reservationItems r pid =
          some q := (rocs_findQty_other s r p pid false hp).trans hfq
      have hle' : (q : Int) ≤
          ((release_or_confirm_single s r p false).products
            pid).reserved_stock := by
        rw [rocs_products_other s r p pid false hp]; exact hle
      rw [e1, ih _ hnd' hrest hfq' hle',
        rocs_products_other s r p pid false hp]

/-! ### Reservation-phase lemmas -/

theorem rp_cons_1 (r : ResId) (s : SysState) (hd : Pid × Nat)
    (rest : List (Pid × Nat)) :
    (reserve_phase r s (hd :: rest)).1 =
      (hd, (reserve_stock s r hd.1 hd.2).1) ::
        (reserve_phase r (reserve_stock s r hd.1 hd.2).2 rest).1 := rfl

theorem rp_cons_2 (r : ResId) (s : SysState) (hd : Pid × Nat)
    (rest : List (Pid × Nat)) :
    (reserve_phase r s (hd :: rest)).2 =
      (reserve_phase r (reserve_stock s r hd.1 hd.2).2 rest).2 := rfl

theorem rp_fst (r : ResId) (items : List (Pid × Nat)) (s : SysState) :
    (reserve_phase r s items).1.map (fun x => x.1) = items := by
  induction items generalizing s with
  | nil => rfl
  | cons it rest ih => simp [rp_cons_1, ih]

theorem rp_orders (r : ResId) (items : List (Pid × Nat)) (s : SysState) :
    (reserve_phase r s items).2.orders = s.orders := by
  induction items generalizing s with
  | nil => rfl
  | cons it rest ih =>
    rw [rp_cons_2]
    exact (ih _).trans (reserve_stock_orders s r it.1 it.2)

theorem rp_products_other (r : ResId) (items : List (Pid × Nat))
    (s : SysState) (pid : Pid) (h : pid ∉ items.map Prod.fst) :
    (reserve_phase r s items).2.products pid = s.products pid := by
  induction items generalizing s with
  | nil => rfl
  | cons it rest ih =>
    have h1 : it.1 ≠ pid := fun he =>
      h (List.mem_map.mpr ⟨it, List.mem_cons_self it rest, he⟩)
    have h2 : pid ∉ rest.map Prod.fst := fun hm =>
      h (by rw [List.map_cons]; exact List.mem_cons_of_mem _ hm)
    rw [rp_cons_2]
    exact (ih _ h2).trans
      (reserve_stock_products_other s r it.1 pid it.2 h1)

theorem rp_findQty_other (r : ResId) (items : List (Pid × Nat))
    (s : SysState) (pid : Pid) (h : pid ∉ items.map Prod.fst) :
    findQty (reserve_phase r s items).2.reservationItems r pid =
      findQty s.reservationItems r pid := by
  induction items generalizing s with
  | nil => rfl
  | cons it rest ih =>
    have h1 : it.1 ≠ pid := fun he =>
      h (List.mem_map.mpr ⟨it, List.mem_cons_self it rest, he⟩)
    have h2 : pid ∉ rest.map Prod.fst := fun hm =>
      h (by rw [List.map_cons]; exact List.mem_cons_of_mem _ hm)
    rw [rp_cons_2]
    exact (ih _ h2).trans
      (reserve_stock_findQty_other s r it.1 pid it.2 h1)

theorem succPids_cons_true (it : Pid × Nat)
    (res : List ((Pid × Nat) × Bool)) :
    succPids ((it, true) :: res) = it.1 :: succPids res := by
  simp [succPids]

theorem succPids_cons_false (it : Pid × Nat)
    (res : List ((Pid × Nat) × Bool)) :
    succPids ((it, false) :: res) = succPids res := by
  simp [succPids]

theorem succPids_sublist (res : List ((Pid × Nat) × Bool)) :
    List.Sublist (succPids res) (res.map (fun y => y.1.1)) :=
  List.Sublist.map _ (List.filter_sublist _)

theorem rp_pids_map (r : ResId) (items : List (Pid × Nat)) (s : SysState) :
    (reserve_phase r s items).1.map (fun y => y.1.1) =
      items.map Prod.fst := by
  have : (fun (y : (Pid × Nat) × Bool) => y.1.1) =
      Prod.fst ∘ (fun y => y.1) := rfl
  rw [this, ← List.map_map, rp_fst]

theorem succPids_mem_pids (r : ResId) (items : List (Pid × Nat))
    (s : SysState) (x : Pid) (hx : x ∈ succPids (reserve_phase r s items).1) :
    x ∈ items.map Prod.fst := by
  have h1 := (succPids_sublist (reserve_phase r s items).1).subset hx
  rwa [rp_pids_map] at h1

theorem succPids_nodup (r : ResId) (items : List (Pid × Nat)) (s : SysState)
    (hnd : (items.map Prod.fst).Nodup) :
    (succPids (reserve_phase r s items).1).Nodup := by
  have h1 := succPids_sublist (reserve_phase r s items).1
  rw [rp_pids_map] at h1
  exact List.Nodup.sublist h1 hnd

theorem rp_respids (r : ResId) (items : List (Pid × Nat)) (s : SysState) :
    resPids (reserve_phase r s items).2.reservationItems r =
      resPids s.reservationItems r ++
        succPids (reserve_phase r s items).1 := by
  induction items generalizing s with
  | nil => simp [reserve_phase, succPids]
  | cons it rest ih =>
    rw [rp_cons_1, rp_cons_2]
    rcases reserve_stock_spec s r it.1 it.2 with ⟨hok, _, hman⟩ | ⟨hok, hst⟩
    · rw [hok, succPids_cons_true, ih _, hman, resPids_append,
        resPids_singleton_self]
      simp
    · rw [hok, succPids_cons_false, ih _, hst]

/-- Per-item effect of the reservation phase: each batch item either had its
reserve succeed — its product's `reserved_stock` grew by exactly its
quantity, the coordinator's manifest holds its entry, and its product id is
in the successful list — or its reserve failed and its product record is
untouched and absent from the successful list.  Needs distinct product ids
in the batch and a reservation id fresh in the manifest. -/
theorem rp_at (r : ResId) (items : List (Pid × Nat)) (s : SysState)
    (hnd : (items.map Prod.fst).Nodup)
    (hfresh : ∀ it ∈ items, findQty s.reservationItems r it.1 = none) :
    ∀ it ∈ items,
      ( ((reserve_phase r s items).2.products it.1).reserved_stock =
          (s.products it.1).reserved_stock + it.2 ∧
        findQty (reserve_phase r s items).2.reservationItems r it.1 =
          some it.2 ∧
        it.1 ∈ succPids (reserve_phase r s items).1 )
      ∨ ( (reserve_phase r s items).2.products it.1 = s.products it.1 ∧
          it.1 ∉ succPids (reserve_phase r s items).1 ) := by
  induction items generalizing s with
  | nil => intro it hit; cases hit
  | cons hd rest ih =>
    intro it hit
    rw [List.map_cons] at hnd
    have hdnotin : hd.1 ∉ rest.map Prod.fst := (List.nodup_cons.mp hnd).1
    have hndr : (rest.map Prod.fst).Nodup := (List.nodup_cons.mp hnd).2
    rcases reserve_stock_spec s r hd.1 hd.2 with ⟨hok, hprodmap, hman⟩ |
      ⟨hok, hst⟩
    · -- head reserve succeeded
      have hfresh' : ∀ it' ∈ rest,
          findQty (reserve_stock s r hd.1 hd.2).2.reservationItems r it'.1 =
            none := by
        intro it' hit'
        have hne : hd.1 ≠ it'.1 := fun he =>
          hdnotin (he ▸ List.mem_map.mpr ⟨it', hit', rfl⟩)
        rw [hman,
          findQty_append_none _ _ _ _
            (hfresh it' (List.mem_cons_of_mem _ hit')),
          findQty_singleton_ne r it'.1 (r, hd.1, hd.2) hne]
      rcases List.mem_cons.mp hit with hit1 | hit2
      · -- the target item is the head
        subst hit1
        left
        refine ⟨?_, ?_, ?_⟩
        · rw [rp_cons_2, rp_products_other r rest _ it.1 hdnotin, hprodmap,
            updProducts_same]
        · rw [rp_cons_2, rp_findQty_other r rest _ it.1 hdnotin, hman,
            findQty_append_none _ _ _ _
              (hfresh it (List.mem_cons_self it rest)),
            findQty_singleton_self]
        · rw [rp_cons_1, hok, succPids_cons_true]
          exact List.mem_cons_self _ _
      · -- the target item is in the tail
        have hne : hd.1 ≠ it.1 := fun he =>
          hdnotin (he ▸ List.mem_map.mpr ⟨it, hit2, rfl⟩)
        have hprod : (reserve_stock s r hd.1 hd.2).2.products it.1 =
            s.products it.1 :=
          reserve_stock_products_other s r hd.1 it.1 hd.2 hne
        rcases ih _ hndr hfresh' it hit2 with ⟨h1, h2, h3⟩ | ⟨h1, h2⟩
        · left
          refine ⟨?_, ?_, ?_⟩
          · rw [rp_cons_2, h1, hprod]
          · rw [rp_cons_2]; exact h2
          · rw [rp_cons_1, hok, succPids_cons_true]
            exact List.mem_cons_of_mem _ h3
        · right
          refine ⟨by rw [rp_cons_2, h1, hprod], ?_⟩
          rw [rp_cons_1, hok, succPids_cons_true]
          intro hm
          rcases List.mem_cons.mp hm with he | hm'
          · exact hne he.symm
          · exact h2 hm'
    · -- head reserve failed
      rcases List.mem_cons.mp hit with hit1 | hit2
      · subst hit1
        right
        refine ⟨?_, ?_⟩
        · rw [rp_cons_2, hst, rp_products_other r rest s it.1 hdnotin]
        · rw [rp_cons_1, hok, succPids_cons_false, hst]
          intro hm
          exact hdnotin (succPids_mem_pids r rest s it.1 hm)
      · have hfresh' : ∀ it' ∈ rest,
            findQty s.reservationItems r it'.1 = none :=
          fun it' hit' => hfresh it' (List.mem_cons_of_mem _ hit')
        rcases ih s hndr hfresh' it hit2 with ⟨h1, h2, h3⟩ | ⟨h1, h2⟩
        · left
          exact ⟨by rw [rp_cons_2, hst]; exact h1,
            by rw [rp_cons_2, hst]; exact h2,
            by rw [rp_cons_1, hok, succPids_cons_false, hst]; exact h3⟩
        · right
          exact ⟨by rw [rp_cons_2, hst]; exact h1,
            by rw [rp_cons_1, hok, succPids_cons_false, hst]; exact h2⟩

/-- The compensation fold over the successful product ids restores every
batch product's `reserved_stock` to its pre-call value. -/
theorem comp_restores (r : ResId) (items : List (Pid × Nat)) (s : SysState)
    (hnd : (items.map Prod.fst).Nodup)
    (hfresh : ∀ pid, findQty s.reservationItems r pid = none)
    (hnn : ∀ it ∈ items, 0 ≤ (s.products it.1).reserved_stock) :
    ∀ it ∈ items,
      ((applyEach (reserve_phase r s items).2 r false
          (succPids (reserve_phase r s items).1)).products
            it.1).reserved_stock =
        (s.products it.1).reserved_stock := by
  intro it hit
  have hfresh' : ∀ it' ∈ items, findQty s.reservationItems r it'.1 = none :=
    fun it' _ => hfresh it'.1
  have hsnd := succPids_nodup r items s hnd
  rcases rp_at r items s hnd hfresh' it hit with ⟨h1, h2, h3⟩ | ⟨h1, h2⟩
  · have hle : (it.2 : Int) ≤
        ((reserve_phase r s items).2.products it.1).reserved_stock := by
      rw [h1]
      have := hnn it hit
      omega
    rw [applyEach_release_restore r _ _ it.1 it.2 hsnd h3 h2 hle, h1]
    omega
  · rw [applyEach_products_other r false _ _ it.1 h2, h1]

/-! ### Claims C2 and C4 -/

/-- C2 (confirmed): when at least one per-item reserve attempt of the batch
fails, `create_order` issues compensating releases for every item that
succeeded and returns a conflict error; no order record is created and
every batch product's `reserved_stock` equals its pre-call value.  Requires
distinct product ids in the batch, a fresh order reference and non-negative
pre-call reservations. -/
theorem c2_all_or_nothing (s : SysState) (r : ResId)
    (items : List (Pid × Nat)) (persistOk : Bool)
    (hnd : (items.map Prod.fst).Nodup)
    (hfresh : ∀ pid, findQty s.reservationItems r pid = none)
    (hnn : ∀ it ∈ items, 0 ≤ (s.products it.1).reserved_stock)
    (hfail : ((reserve_phase r s items).1.filter (fun x => !x.2)) ≠ []) :
    (create_order s r items persistOk).2 =
      Except.error OrderError.conflict ∧
    (create_order s r items persistOk).1.orders = s.orders ∧
    ∀ it ∈ items,
      ((create_order s r items persistOk).1.products it.1).reserved_stock =
        (s.products it.1).reserved_stock := by
  have hco : create_order s r items persistOk =
      (applyEach (reserve_phase r s items).2 r false
         (succPids (reserve_phase r s items).1),
       Except.error OrderError.conflict) := by
    unfold create_order
    rw [if_pos hfail]
  rw [hco]
  refine ⟨rfl, ?_, ?_⟩
  · exact ((applyEach_frame r false _ _).1).trans (rp_orders r items s)
  · intro it hit
    exact comp_restores r items s hnd hfresh hnn it hit

/-- Witness for C2 at Scenario B: items [(P1, 2), (P2, 3)] with P1 having 5
available and P2 only 1 — the batch fails on P2, a conflict is returned, no
order is created, and P1's reservation is rolled back. -/
theorem c2_all_or_nothing_witness :
    (create_order stateAB "ORD-1" [(1, 2), (2, 3)] true).2 =
      Except.error OrderError.conflict ∧
    (create_order stateAB "ORD-1" [(1, 2), (2, 3)] true).1.orders =
      stateAB.orders ∧
    ∀ it ∈ [((1 : Pid), (2 : Nat)), (2, 3)],
      ((create_order stateAB "ORD-1" [(1, 2), (2, 3)]
          true).1.products it.1).reserved_stock =
        (stateAB.products it.1).reserved_stock :=
  c2_all_or_nothing stateAB "ORD-1" [(1, 2), (2, 3)] true (by decide)
    (fun _ => rfl) (by decide) (by decide)

/-- C4 (confirmed): when every reserve of the batch succeeded but the order
persist step fails, `create_order` releases the whole reservation
(`release_reservation(order_ref)`) before surfacing the persistence error:
the result is the persistence error, no order record exists, and every
batch product's `reserved_stock` is back to its pre-call value — the
reservation does not outlive the failed order. -/
theorem c4_release_on_persist_failure (s : SysState) (r : ResId)
    (items : List (Pid × Nat))
    (hnd : (items.map Prod.fst).Nodup)
    (hfresh : ∀ pid, findQty s.reservationItems r pid = none)
    (hnn : ∀ it ∈ items, 0 ≤ (s.products it.1).reserved_stock)
    (hres : ((reserve_phase r s items).1.filter (fun x => !x.2)) = []) :
    (create_order s r items false).2 =
      Except.error OrderError.persistenceFailure ∧
    (create_order s r items false).1.orders = s.orders ∧
    ∀ it ∈ items,
      ((create_order s r items false).1.products it.1).reserved_stock =
        (s.products it.1).reserved_stock := by
  have hco : create_order s r items false =
      (release_reservation (reserve_phase r s items).2 r,
       Except.error OrderError.persistenceFailure) := by
    unfold create_order
    rw [if_neg (fun hne => hne hres)]
    rfl
  have hrespids : resPids (reserve_phase r s items).2.reservationItems r =
      succPids (reserve_phase r s items).1 := by
    rw [rp_respids, fresh_resPids_nil s.reservationItems r hfresh]
    rfl
  rw [hco]
  refine ⟨rfl, ?_, ?_⟩
  · exact ((release_reservation_frame _ _).1).trans (rp_orders r items s)
  · intro it hit
    show ((release_reservation (reserve_phase r s items).2 r).products
        it.1).reserved_stock = _
    unfold release_reservation
    rw [hrespids]
    exact comp_restores r items s hnd hfresh hnn it hit

/-- Witness for C4: a one-item batch reserves successfully, the persist
fails, and the reservation is fully released. -/
theorem c4_release_on_persist_failure_witness :
    (create_order stateAB "ORD-2" [(1, 2)] false).2 =
      Except.error OrderError.persistenceFailure ∧
    (create_order stateAB "ORD-2" [(1, 2)] false).1.orders =
      stateAB.orders ∧
    ∀ it ∈ [((1 : Pid), (2 : Nat))],
      ((create_order stateAB "ORD-2" [(1, 2)]
          false).1.products it.1).reserved_stock =
        (stateAB.products it.1).reserved_stock :=
  c4_release_on_persist_failure stateAB "ORD-2" [(1, 2)] (by decide)
    (fun _ => rfl) (by decide) (by decide)

end AgentOS
